import Mathlib

/-!
Shallow embedding of the server-URL resolution core of `src/hello.py`
(`get_path_server_url`), together with the spec-acquisition parse cascade
(`download_spec`) and the pre-LLM control flow of `select_parameters`.

Python `Optional` fields become `Option`; Python truthiness of an optional
list (`x and len(x) > 0`) becomes a match on `some (_ :: _)`; a Python dict
becomes an association list with `List.lookup`; a raised exception becomes
the `Except.error` branch of an explicit error type.
-/

/-- ServerEntry of the data model: `url` is a base URL string
(openapi_pydantic `Server.url` is a plain `str`, no non-emptiness check). -/
structure Server where
  url : String
deriving DecidableEq, Repr

/-- Parameter object as far as the embedded code reads it: only `name` is
consulted by `select_parameters` when building the description dict. -/
structure Parameter where
  name : String
deriving DecidableEq, Repr

/-- An element of `PathItem.get.parameters` as `resolve_parameter_reference`
sees it: either an already-parsed Parameter object, or a raw dict holding a
`$ref` (the stored string is the last `/`-segment of the reference). -/
inductive ParamOrRef where
  | inline (p : Parameter)
  | ref (refName : String)
deriving DecidableEq, Repr

/-- Operation object: `get_path_server_url` never reads it;
`select_parameters` reads its `parameters` list. -/
structure Operation where
  parameters : Option (List ParamOrRef)
deriving DecidableEq, Repr

/-- PathEntry of the data model: a per-path `servers` override plus the GET
operation (other fields of the pydantic model are never read by this core). -/
structure PathItem where
  servers : Option (List Server)
  get : Option Operation
deriving DecidableEq, Repr

/-- Components object: `resolve_parameter_reference` reads
`components.parameters`, a dict from reference name to Parameter. -/
structure Components where
  parameters : Option (List (String × Parameter))
deriving DecidableEq, Repr

/-- ApiSpecification: the fields of the parsed OpenAPI object that the
embedded functions read. `paths` is a dict from path-pattern to PathItem,
`servers` the root-level server sequence; both may be absent (`none`). -/
structure OpenAPISpec where
  paths : Option (List (String × PathItem))
  servers : Option (List Server)
  components : Option Components
deriving DecidableEq, Repr

/-- The single explicit failure mode of the resolver (the Python code raises
`ValueError("No server url found in openapi spec")`). -/
inductive ResolveError where
  | NoServerFound
deriving DecidableEq, Repr

/-- Python exceptions surfaced by the other embedded functions. -/
inductive PyError where
  | valueError (msg : String)
  | attributeError
deriving DecidableEq, Repr

/-- Dict lookup: `path in spec.paths` followed by `spec.paths[path]`. The
Python guard `openapi_spec.paths and path in openapi_spec.paths` is
equivalent to this lookup succeeding: when `paths` is `None` or the empty
dict (both falsy) no key can match. -/
def pathsLookup (spec : OpenAPISpec) (path : String) : Option PathItem :=
  match spec.paths with
  | some ps => ps.lookup path
  | none => none

/-- First URL of an optional server list: the value of
`xs[0].url` under the guard `xs and len(xs) > 0`, `none` when the guard
fails. -/
def firstUrlOf : Option (List Server) → Option String
  | some (s :: _) => some s.url
  | _ => none

/-- Step 1 of `get_path_server_url`: the URL returned by the path-level
block (`if path and openapi_spec.paths and path in openapi_spec.paths: ...
if path_item.servers and len(path_item.servers) > 0: return
path_item.servers[0].url`), or `none` when that block falls through. -/
def firstPathServerUrl (spec : OpenAPISpec) (path : String) : Option String :=
  if path = "" then none
  else
    match pathsLookup spec path with
    | some item => firstUrlOf item.servers
    | none => none

/-- Step 2 of `get_path_server_url`: the root-level fallback
(`if openapi_spec.servers and len(openapi_spec.servers) > 0: return
openapi_spec.servers[0].url`). -/
def firstRootServerUrl (spec : OpenAPISpec) : Option String :=
  firstUrlOf spec.servers

/-- Embedding of `get_path_server_url` (src/hello.py lines 257-273):
path-level servers first, then root-level servers, else raise. -/
def get_path_server_url (spec : OpenAPISpec) (path : String) :
    Except ResolveError String :=
  match firstPathServerUrl spec path with
  | some u => Except.ok u
  | none =>
    match firstRootServerUrl spec with
    | some u => Except.ok u
    | none => Except.error ResolveError.NoServerFound

/-- State-passing view of a call to `get_path_server_url`: the Python body
only reads attributes, tests truthiness and subscripts; no statement
assigns into the specification object, so the out-state is the in-state. -/
def resolveCall (spec : OpenAPISpec) (path : String) :
    Except ResolveError String × OpenAPISpec :=
  (get_path_server_url spec path, spec)

/-- Embedding of the parse cascade of `download_spec` (src/hello.py lines
34-48) over the fetched text: `json.loads`, on `JSONDecodeError` fall back
to `yaml.safe_load`, on `YAMLError` raise `ValueError`. The two third-party
parsers are abstracted as functions returning `none` exactly when they
raise their parse exception. -/
def download_spec_parse {α : Type} (jsonParse : String → Option α)
    (yamlParse : String → Option α) (text : String) : Except PyError α :=
  match jsonParse text with
  | some v => Except.ok v
  | none =>
    match yamlParse text with
    | some v => Except.ok v
    | none => Except.error (PyError.valueError "Failed to parse file as json or yaml")

/-- Embedding of `resolve_parameter_reference` (src/hello.py lines 142-147):
a dict with `$ref` is looked up in `components.parameters` (crashing with
AttributeError when `components` or `components.parameters` is `None`, as
the Python attribute access would); anything else is returned as-is. -/
def resolve_parameter_reference (parameter : ParamOrRef) (spec : OpenAPISpec) :
    Except PyError (Option Parameter) :=
  match parameter with
  | ParamOrRef.inline p => Except.ok (some p)
  | ParamOrRef.ref refName =>
    match spec.components with
    | none => Except.error PyError.attributeError
    | some comps =>
      match comps.parameters with
      | none => Except.error PyError.attributeError
      | some ps => Except.ok (ps.lookup refName)

/-- Dict insertion with Python overwrite semantics: an existing key keeps
its position and gets the new value, a new key is appended. -/
def dictInsert {α : Type} (k : String) (v : α) :
    List (String × α) → List (String × α)
  | [] => [(k, v)]
  | (k2, v2) :: rest =>
    if k2 = k then (k, v) :: rest else (k2, v2) :: dictInsert k v rest

/-- The description-building loop of `select_parameters`: resolve each
parameter, keep those that are Parameter instances, keyed by name. -/
def buildDescsAux (spec : OpenAPISpec) (acc : List (String × Parameter)) :
    List ParamOrRef → Except PyError (List (String × Parameter))
  | [] => Except.ok acc
  | p :: rest =>
    match resolve_parameter_reference p spec with
    | Except.error e => Except.error e
    | Except.ok none => buildDescsAux spec acc rest
    | Except.ok (some q) => buildDescsAux spec (dictInsert q.name q acc) rest

/-- The `param_in` literal of the ParameterIn pydantic model:
`Literal["query", "path"]`. -/
inductive ParamLocation where
  | query
  | path
deriving DecidableEq, Repr

/-- Embedding of the ParameterIn pydantic model (src/hello.py lines 81-84). -/
structure ParameterIn where
  name : String
  param_in : ParamLocation
  value : String
deriving DecidableEq, Repr

/-- Embedding of `select_parameters` (src/hello.py lines 150-254). The LLM
call (prompting, retries and name validation) is abstracted as the oracle
`llm`, consulted only when the built description dict is non-empty; the
three guard branches before it are translated from the source. -/
def select_parameters
    (llm : List (String × Parameter) → String → List ParameterIn)
    (openapi_spec : OpenAPISpec) (endpoint : String) (user_query : String) :
    Except PyError (List ParameterIn) :=
  match pathsLookup openapi_spec endpoint with
  | none =>
    Except.error (PyError.valueError
      ("Endpoint " ++ endpoint ++ " not found in openapi spec"))
  | some endpoint_spec =>
    let descsE : Except PyError (List (String × Parameter)) :=
      match endpoint_spec.get with
      | some op =>
        match op.parameters with
        | some (p :: rest) => buildDescsAux openapi_spec [] (p :: rest)
        | _ => Except.ok []
      | none => Except.ok []
    match descsE with
    | Except.error e => Except.error e
    | Except.ok descs =>
      if descs.isEmpty then Except.ok []
      else Except.ok (llm descs user_query)

/-- Claim C1: when the path argument is non-empty, is a key of
`spec.paths`, and that entry declares a non-empty server list, the
resolver returns the url of the first entry of that list, whatever the
root-level servers are. -/
theorem resolver_path_level_first (spec : OpenAPISpec) (path : String)
    (ps : List (String × PathItem)) (item : PathItem) (s : Server)
    (rest : List Server)
    (hpath : path ≠ "") (hps : spec.paths = some ps)
    (hitem : ps.lookup path = some item)
    (hservers : item.servers = some (s :: rest)) :
    get_path_server_url spec path = Except.ok s.url := by
  unfold get_path_server_url firstPathServerUrl pathsLookup
  simp [hpath, hps, hitem, hservers, firstUrlOf]

/-- Claim C1 witness at a concrete specification with distinct path-level
and root-level servers. -/
theorem resolver_path_level_first_witness :
    get_path_server_url
      ⟨some [("/weather",
          ⟨some [⟨"https://weather.example.com/v1"⟩, ⟨"https://alt.example.com"⟩],
           none⟩)],
       some [⟨"https://api.example.com/v1"⟩], none⟩ "/weather"
      = Except.ok "https://weather.example.com/v1" :=
  resolver_path_level_first _ "/weather" _ _ _ _ (by decide) rfl rfl rfl

/-- Claim C2: when the root-level server list is non-empty and step 1 does
not apply (path empty, or not a key of `paths`, or its entry's server list
absent or empty), the resolver returns the url of the first root-level
entry. -/
theorem resolver_root_fallback (spec : OpenAPISpec) (path : String)
    (s : Server) (rest : List Server)
    (hroot : spec.servers = some (s :: rest))
    (hskip : path = "" ∨ pathsLookup spec path = none ∨
      ∃ item, pathsLookup spec path = some item ∧
        (item.servers = none ∨ item.servers = some [])) :
    get_path_server_url spec path = Except.ok s.url := by
  have hnone : firstPathServerUrl spec path = none := by
    unfold firstPathServerUrl
    rcases hskip with h | h | ⟨item, hit, hsrv⟩
    · simp [h]
    · simp [h]
    · rcases hsrv with h | h <;> simp [hit, h, firstUrlOf]
  unfold get_path_server_url firstRootServerUrl
  simp [hnone, hroot, firstUrlOf]

/-- Claim C2 witness: the path argument names a key whose entry has an
empty server list, so the first root-level url is returned. -/
theorem resolver_root_fallback_witness :
    get_path_server_url
      ⟨some [("/weather", ⟨some [], none⟩)],
       some [⟨"https://api.example.com/v1"⟩, ⟨"https://staging.example.com/v1"⟩],
       none⟩ "/weather"
      = Except.ok "https://api.example.com/v1" :=
  resolver_root_fallback _ "/weather" _ _ rfl
    (Or.inr (Or.inr ⟨⟨some [], none⟩, rfl, Or.inr rfl⟩))

/-- Claim C3: the resolver fails, with the one distinguishable error kind
`NoServerFound` of the `Except.error` branch (never a null or sentinel
return), exactly when neither a matching non-empty path-level server list
nor a non-empty root-level server list exists. -/
theorem resolver_error_iff (spec : OpenAPISpec) (path : String) :
    get_path_server_url spec path = Except.error ResolveError.NoServerFound ↔
      firstPathServerUrl spec path = none ∧ firstRootServerUrl spec = none := by
  cases h1 : firstPathServerUrl spec path <;>
    cases h2 : firstRootServerUrl spec <;>
      simp [get_path_server_url, h1, h2]

/-- Claim C3 witness: a specification with no servers anywhere makes the
resolver fail with `NoServerFound`. -/
theorem resolver_error_iff_witness :
    get_path_server_url ⟨some [("/w", ⟨none, none⟩)], none, none⟩ "/w"
      = Except.error ResolveError.NoServerFound :=
  (resolver_error_iff ⟨some [("/w", ⟨none, none⟩)], none, none⟩ "/w").mpr
    ⟨rfl, rfl⟩

/-- Claim C4 counterexample: the claim states the resolver never returns an
empty string, but a specification whose first root server entry has the
empty string as its url makes the call return the empty string (the url
field is returned verbatim and nothing checks it for emptiness). -/
theorem resolver_returns_empty_string :
    get_path_server_url ⟨none, some [⟨""⟩], none⟩ "/x" = Except.ok "" := rfl

/-- Claim C4 as amended: every call returns exactly one url string — the
consulted path-level or root-level first entry's url, verbatim — or fails
with the error; it never returns null, and it can return an empty string
only when that consulted entry's url is itself empty. -/
theorem resolver_total_url_provenance (spec : OpenAPISpec) (path : String) :
    (∃ u, get_path_server_url spec path = Except.ok u ∧
       (firstPathServerUrl spec path = some u ∨ firstRootServerUrl spec = some u)) ∨
    get_path_server_url spec path = Except.error ResolveError.NoServerFound := by
  cases h1 : firstPathServerUrl spec path with
  | some u => exact Or.inl ⟨u, by simp [get_path_server_url, h1], Or.inl rfl⟩
  | none =>
    cases h2 : firstRootServerUrl spec with
    | some u => exact Or.inl ⟨u, by simp [get_path_server_url, h1, h2], Or.inr rfl⟩
    | none => exact Or.inr (by simp [get_path_server_url, h1, h2])

/-- Claim C6: resolution is deterministic, and calling it again on the
unmutated specification left behind by a first call yields the same
result. -/
theorem resolver_idempotent (spec1 spec2 : OpenAPISpec) (path1 path2 : String)
    (hs : spec1 = spec2) (hp : path1 = path2) :
    (resolveCall (resolveCall spec1 path1).2 path1).1 = (resolveCall spec1 path1).1 ∧
    resolveCall spec1 path1 = resolveCall spec2 path2 := by
  subst hs; subst hp; exact ⟨rfl, rfl⟩

/-- Claim C6 witness at a concrete specification. -/
theorem resolver_idempotent_witness :
    (resolveCall
        (resolveCall ⟨none, some [⟨"https://api.example.com/v1"⟩], none⟩ "/w").2
        "/w").1
      = (resolveCall ⟨none, some [⟨"https://api.example.com/v1"⟩], none⟩ "/w").1 ∧
    resolveCall ⟨none, some [⟨"https://api.example.com/v1"⟩], none⟩ "/w"
      = resolveCall ⟨none, some [⟨"https://api.example.com/v1"⟩], none⟩ "/w" :=
  resolver_idempotent _ _ "/w" "/w" rfl rfl

/-- Claim C7: a call is a pure read — the state-passing view of the call
leaves every field of the specification unchanged and its value component
is exactly the resolution result. -/
theorem resolver_pure_frame (spec : OpenAPISpec) (path : String) :
    (resolveCall spec path).2.paths = spec.paths ∧
    (resolveCall spec path).2.servers = spec.servers ∧
    (resolveCall spec path).2.components = spec.components ∧
    (resolveCall spec path).1 = get_path_server_url spec path :=
  ⟨rfl, rfl, rfl, rfl⟩

/-- Claim C9: the lookup logic is total — for every specification,
including one with `paths` or `servers` absent, a call either returns a
url or fails with the single `NoServerFound` error; no other outcome
exists. -/
theorem resolver_no_other_exception (spec : OpenAPISpec) (path : String) :
    (∃ u, get_path_server_url spec path = Except.ok u) ∨
    get_path_server_url spec path = Except.error ResolveError.NoServerFound := by
  unfold get_path_server_url
  cases h1 : firstPathServerUrl spec path with
  | some u => exact Or.inl ⟨u, rfl⟩
  | none =>
    cases h2 : firstRootServerUrl spec with
    | some u => exact Or.inl ⟨u, rfl⟩
    | none => exact Or.inr rfl

/-- Shape-and-head view of an optional server list: absent, present and
empty, or present with its first entry. Two lists with the same view agree
on presence, emptiness and first entry, and may differ arbitrarily after
the first entry. -/
def headShape : Option (List Server) → Option (Option Server)
  | none => none
  | some [] => some none
  | some (s :: _) => some (some s)

/-- Agreement of two dict entries: same key, and server lists with the
same presence, emptiness and first entry. -/
def pathsEntryAgree (p q : String × PathItem) : Prop :=
  p.1 = q.1 ∧ headShape p.2.servers = headShape q.2.servers

/-- Agreement of two optional `paths` dicts: same presence, same keys in
order, entrywise server-head agreement. -/
def pathsAgree : Option (List (String × PathItem)) →
    Option (List (String × PathItem)) → Prop
  | none, none => True
  | some ps, some qs => List.Forall₂ pathsEntryAgree ps qs
  | _, _ => False

/-- Agreement of two specifications on everything the resolver consults
other than the tails of server lists. -/
def specAgree (a b : OpenAPISpec) : Prop :=
  headShape a.servers = headShape b.servers ∧ pathsAgree a.paths b.paths

/-- The first url of an optional server list is determined by its
shape-and-head view. -/
theorem firstUrlOf_headShape (a : Option (List Server)) :
    firstUrlOf a = (headShape a).bind (fun o => o.map Server.url) := by
  match a with
  | none => rfl
  | some [] => rfl
  | some (s :: _) => rfl

/-- Lists with equal shape-and-head views have the same first url. -/
theorem firstUrlOf_eq_of_headShape {a b : Option (List Server)}
    (h : headShape a = headShape b) : firstUrlOf a = firstUrlOf b := by
  rw [firstUrlOf_headShape a, firstUrlOf_headShape b, h]

/-- Entrywise-agreeing dicts yield the same first-url result under lookup
at any key. -/
theorem lookup_firstUrl_agree (path : String) :
    ∀ {ps qs : List (String × PathItem)}, List.Forall₂ pathsEntryAgree ps qs →
    (match ps.lookup path with
     | some item => firstUrlOf item.servers
     | none => none) =
    (match qs.lookup path with
     | some item => firstUrlOf item.servers
     | none => none) := by
  intro ps qs h
  induction h with
  | nil => rfl
  | cons hab htl ih =>
    rename_i a b l₁ l₂
    obtain ⟨k₁, v₁⟩ := a
    obtain ⟨k₂, v₂⟩ := b
    obtain ⟨hk, hv⟩ := hab
    simp only at hk
    subst hk
    by_cases hpk : path == k₁
    · simp [List.lookup, hpk, firstUrlOf_eq_of_headShape hv]
    · simp only [List.lookup, hpk]
      exact ih

/-- Claim C5: two specifications that agree on the presence, emptiness and
first entry of every server list the resolver can consult (root-level and
each path entry's) produce identical resolution outcomes for every path;
entries after the first are never used. -/
theorem resolver_ignores_later_servers (a b : OpenAPISpec) (path : String)
    (h : specAgree a b) :
    get_path_server_url a path = get_path_server_url b path := by
  obtain ⟨hs, hp⟩ := h
  have hroot : firstRootServerUrl a = firstRootServerUrl b :=
    firstUrlOf_eq_of_headShape hs
  have hpath : firstPathServerUrl a path = firstPathServerUrl b path := by
    unfold firstPathServerUrl pathsLookup
    by_cases hpe : path = ""
    · simp [hpe]
    · simp only [hpe, if_false]
      cases ha : a.paths with
      | none =>
        cases hb : b.paths with
        | none => rfl
        | some qs => rw [ha, hb] at hp; simp [pathsAgree] at hp
      | some ps =>
        cases hb : b.paths with
        | none => rw [ha, hb] at hp; simp [pathsAgree] at hp
        | some qs =>
          rw [ha, hb] at hp
          simp only [pathsAgree] at hp
          exact lookup_firstUrl_agree path hp
  rw [get_path_server_url, get_path_server_url, hpath, hroot]

/-- Claim C5 witness: two specifications equal up to the tails of their
server lists resolve identically. -/
theorem resolver_ignores_later_servers_witness :
    get_path_server_url
      ⟨some [("/w", ⟨some [⟨"https://w.example/v1"⟩, ⟨"https://tail1.example"⟩], none⟩)],
       some [⟨"https://root.example/v1"⟩, ⟨"https://tailr.example"⟩], none⟩ "/w"
      = get_path_server_url
      ⟨some [("/w", ⟨some [⟨"https://w.example/v1"⟩], none⟩)],
       some [⟨"https://root.example/v1"⟩, ⟨"https://other.example"⟩,
             ⟨"https://more.example"⟩], none⟩ "/w" :=
  resolver_ignores_later_servers _ _ "/w"
    ⟨rfl, List.Forall₂.cons ⟨rfl, rfl⟩ List.Forall₂.nil⟩

/-- Claim C8: the spec-acquisition parse cascade returns the JSON parse
result when JSON parsing succeeds; on JSON failure it returns the YAML
parse result when that succeeds; and it surfaces a parse error exactly
when both parses fail. -/
theorem download_spec_parse_cascade {α : Type} (jp yp : String → Option α)
    (t : String) :
    (∀ v, jp t = some v → download_spec_parse jp yp t = Except.ok v) ∧
    (jp t = none → ∀ w, yp t = some w → download_spec_parse jp yp t = Except.ok w) ∧
    ((∃ e, download_spec_parse jp yp t = Except.error e) ↔
      (jp t = none ∧ yp t = none)) := by
  refine ⟨?_, ?_, ?_, ?_⟩
  · intro v hv
    simp [download_spec_parse, hv]
  · intro h w hw
    simp [download_spec_parse, h, hw]
  · rintro ⟨e, he⟩
    cases h1 : jp t with
    | some v => simp [download_spec_parse, h1] at he
    | none =>
      cases h2 : yp t with
      | some w => simp [download_spec_parse, h1, h2] at he
      | none => exact ⟨rfl, rfl⟩
  · rintro ⟨h1, h2⟩
    exact ⟨PyError.valueError "Failed to parse file as json or yaml",
      by simp [download_spec_parse, h1, h2]⟩

/-- Claim C8 witness: a text only YAML can parse is returned via the YAML
fallback. -/
theorem download_spec_parse_cascade_witness :
    download_spec_parse (fun _ => (none : Option Nat))
      (fun s => if s = "k: v" then some 7 else none) "k: v" = Except.ok 7 :=
  (download_spec_parse_cascade (fun _ => (none : Option Nat))
      (fun s => if s = "k: v" then some 7 else none) "k: v").2.1 rfl 7 (by simp)

/-- Claim C10: when the endpoint is a key of the paths dict but its entry
has no GET operation, or a GET operation with no declared parameters, the
call returns the empty list for every possible LLM oracle (so the model is
never consulted); when the endpoint is not a key, it raises the ValueError
instead. -/
theorem select_parameters_guards
    (llm : List (String × Parameter) → String → List ParameterIn)
    (spec : OpenAPISpec) (endpoint : String) (q : String) :
    (∀ item, pathsLookup spec endpoint = some item →
      (item.get = none ∨ ∃ op, item.get = some op ∧
        (op.parameters = none ∨ op.parameters = some [])) →
      select_parameters llm spec endpoint q = Except.ok []) ∧
    (pathsLookup spec endpoint = none →
      select_parameters llm spec endpoint q =
        Except.error (PyError.valueError
          ("Endpoint " ++ endpoint ++ " not found in openapi spec"))) := by
  constructor
  · intro item hit hcase
    rcases hcase with hg | ⟨op, hop, hparams⟩
    · simp [select_parameters, hit, hg]
    · rcases hparams with hp | hp <;> simp [select_parameters, hit, hop, hp]
  · intro hnone
    simp [select_parameters, hnone]

/-- Claim C10 witness: an endpoint whose GET operation declares no
parameters returns the empty list even under an oracle that would pick a
parameter. -/
theorem select_parameters_guards_witness :
    select_parameters (fun _ _ => [⟨"lat", ParamLocation.query, "52.52"⟩])
      ⟨some [("/health", ⟨none, some ⟨none⟩⟩)], none, none⟩ "/health" "status?"
      = Except.ok [] :=
  (select_parameters_guards (fun _ _ => [⟨"lat", ParamLocation.query, "52.52"⟩])
      ⟨some [("/health", ⟨none, some ⟨none⟩⟩)], none, none⟩ "/health" "status?").1
    ⟨none, some ⟨none⟩⟩ rfl (Or.inr ⟨⟨none⟩, rfl, Or.inl rfl⟩)
